import Mathlib

/-!
Shallow embedding of `src/app4.py`, a Streamlit dashboard that scores
diabetes risk with a pre-trained logistic-regression model and explains
the result from a precomputed odds-ratio table.

Numeric patient values and thresholds are embedded as rationals where the
script only compares and formats them, and as reals where the sigmoid is
involved.  Threshold functions that are shared by both parts are stated
polymorphically over a `LinearOrderedField`.
-/

namespace App4

/-- The `FEATURES` list of the five clinical-variable keys, in column
order (line 142 of `app4.py`). -/
def FEATURES : List String :=
  ["nivel_glucosa", "nivel_hba1c", "imc", "hipertension", "cardiopatia"]

/-- The `patient_data` dict built from the sidebar inputs (lines 345-351):
three numeric fields and the two 0/1 flags `ht_val`, `cp_val`. -/
structure Patient where
  nivel_glucosa : ℚ
  nivel_hba1c : ℚ
  imc : ℚ
  hipertension : ℚ
  cardiopatia : ℚ
deriving DecidableEq

/-- `patient_data[var]` (line 475): dictionary lookup by clinical-variable
name; `none` models the `KeyError` raised for an unknown key. -/
def patientLookup (p : Patient) (var : String) : Option ℚ :=
  if var = "nivel_glucosa" then some p.nivel_glucosa
  else if var = "nivel_hba1c" then some p.nivel_hba1c
  else if var = "imc" then some p.imc
  else if var = "hipertension" then some p.hipertension
  else if var = "cardiopatia" then some p.cardiopatia
  else none

/-- One row of the odds-ratio table `odds_ratios_reales.csv`, read through
the columns `Variable Clínica` and `Odds Ratio (OR)` (lines 473-474). -/
structure ORRow where
  var : String
  or_val : ℚ
deriving DecidableEq

/-- The semantic content of one entry appended to `factores_identificados`
(lines 479-514): which message template fired, with the patient value and
odds ratio interpolated into the rendered strings. -/
inductive Factor where
  | glucosaElevada (paciente_val or_val : ℚ)
  | hba1cDiabetes (paciente_val or_val : ℚ)
  | hba1cPrediabetes (paciente_val or_val : ℚ)
  | imcElevado (paciente_val or_val : ℚ)
  | hipertensionPresente (or_val : ℚ)
  | cardiopatiaPresente (or_val : ℚ)
deriving DecidableEq

/-- The odds ratio interpolated into a factor entry (every template interpolates it
into the printed detail line). -/
def Factor.orVal : Factor → ℚ
  | .glucosaElevada _ o => o
  | .hba1cDiabetes _ o => o
  | .hba1cPrediabetes _ o => o
  | .imcElevado _ o => o
  | .hipertensionPresente o => o
  | .cardiopatiaPresente o => o

/-- The body of one iteration of the `factores_identificados` loop after
the lookup (lines 477-514): the `or_val > 1.0` guard wrapping the
`if var == ... and ...` / `elif` cascade, with the nested HbA1c branch. -/
def rowFactor (var : String) (or_val paciente_val : ℚ) : Option Factor :=
  if 1 < or_val then
    if var = "nivel_glucosa" ∧ 100 < paciente_val then
      some (Factor.glucosaElevada paciente_val or_val)
    else if var = "nivel_hba1c" then
      if 6.5 ≤ paciente_val then some (Factor.hba1cDiabetes paciente_val or_val)
      else if 5.7 ≤ paciente_val then some (Factor.hba1cPrediabetes paciente_val or_val)
      else none
    else if var = "imc" ∧ 25 < paciente_val then
      some (Factor.imcElevado paciente_val or_val)
    else if var = "hipertension" ∧ paciente_val = 1 then
      some (Factor.hipertensionPresente or_val)
    else if var = "cardiopatia" ∧ paciente_val = 1 then
      some (Factor.cardiopatiaPresente or_val)
    else none
  else none

/-- The `factores_identificados` loop (lines 470-514): iterate the table
rows in order; for each row look the patient value up by name FIRST
(line 475, a `KeyError` — modelled as `Except.error` carrying the bad
key — aborts the whole rerun), then run the guarded cascade and append. -/
def factoresIdentificados (p : Patient) : List ORRow → Except String (List Factor)
  | [] => Except.ok []
  | r :: rest =>
    match patientLookup p r.var with
    | none => Except.error r.var
    | some paciente_val =>
      match factoresIdentificados p rest with
      | Except.error e => Except.error e
      | Except.ok tail =>
        match rowFactor r.var r.or_val paciente_val with
        | some f => Except.ok (f :: tail)
        | none => Except.ok tail

/-- `create_or_chart` (lines 214-270), reduced to the data that decides
which bars exist: `none` for a missing or empty table and for a table with
no row of odds ratio `> 1.0`; otherwise the rows kept as bars, in table
order.  (The label munging and colors are chart cosmetics.) -/
def create_or_chart (tabla_or : Option (List ORRow)) : Option (List ORRow) :=
  match tabla_or with
  | none => none
  | some rows =>
    if rows.isEmpty then none
    else
      let relevant := rows.filter (fun r => 1 < r.or_val)
      if relevant.isEmpty then none else some relevant

/-- The `Estado` column of `params_display` (lines 412-418), one status
string per parameter in row order Glucosa, HbA1c, IMC, Hipertensión,
Cardiopatía. -/
def paramsEstado (p : Patient) : List String :=
  [ if 125 < p.nivel_glucosa then "⚠️ Elevado" else "✓ Normal",
    if 6.5 ≤ p.nivel_hba1c then "⚠️ Elevado"
      else if 5.7 ≤ p.nivel_hba1c then "⚠️ Prediabetes" else "✓ Normal",
    if 30 < p.imc then "⚠️ Elevado"
      else if 25 < p.imc then "⚠️ Sobrepeso" else "✓ Normal",
    if p.hipertension = 1 then "⚠️ Presente" else "✓ Ausente",
    if p.cardiopatia = 1 then "⚠️ Presente" else "✓ Ausente" ]

/-- `riesgo_categoria` (line 428):
`"ALTO" if riesgo_pct >= 50 else "MODERADO" if riesgo_pct >= 20 else "BAJO"`. -/
def riesgo_categoria {α : Type*} [LinearOrderedField α] (riesgo_pct : α) : String :=
  if 50 ≤ riesgo_pct then "ALTO"
  else if 20 ≤ riesgo_pct then "MODERADO"
  else "BAJO"

/-- The alert banner and recommendation chosen by the
`if riesgo_pct >= 50 / elif riesgo_pct >= 20 / else` cascade
(lines 374-397): the CSS class of the rendered banner and the
`recomendacion` string set in the same branch. -/
structure BannerOutput where
  alertClass : String
  recomendacion : String
deriving DecidableEq

/-- The tier cascade of lines 374-397 as a function of `riesgo_pct`. -/
def resultadoBanner {α : Type*} [LinearOrderedField α] (riesgo_pct : α) : BannerOutput :=
  if 50 ≤ riesgo_pct then
    { alertClass := "alert-high",
      recomendacion := "Acción Inmediata: Solicitar pruebas confirmatorias (Glucemia en ayunas, Curva de tolerancia a la glucosa). Considerar derivación a endocrinología." }
  else if 20 ≤ riesgo_pct then
    { alertClass := "alert-medium",
      recomendacion := "Monitoreo Activo: Control periódico cada 3-6 meses. Implementar programa de modificación de estilo de vida (dieta, ejercicio)." }
  else
    { alertClass := "alert-low",
      recomendacion := "Prevención: Mantener controles anuales de rutina. Continuar con hábitos de vida saludables." }

/-- The data of the gauge built by `create_gauge_chart` (lines 167-212):
the displayed value `probability * 100` and the bar/number color picked by
the `probability >= 0.5 / >= 0.2 / else` cascade. -/
structure GaugeChart (α : Type*) where
  value : α
  bar_color : String
  number_color : String

/-- `create_gauge_chart` (lines 167-203), reduced to value and colors. -/
def create_gauge_chart {α : Type*} [LinearOrderedField α] (probability : α) : GaugeChart α :=
  let c : String :=
    if 0.5 ≤ probability then "#EF476F"
    else if 0.2 ≤ probability then "#FFD166"
    else "#06D6A0"
  { value := probability * 100, bar_color := c, number_color := c }

/-! ## The scorer (`predict_diabetes`, lines 153-162) over the reals -/

/-- The fitted `StandardScaler` loaded from `scaler_diabetes.pkl`: a
per-feature mean and scale, indexed in `FEATURES` order. -/
structure ScalerParams where
  mean : Fin 5 → ℝ
  scale : Fin 5 → ℝ

/-- The fitted logistic-regression model loaded from
`modelo_diabetes_logreg.pkl`: 5 coefficients and an intercept. -/
structure ClassifierParams where
  coef : Fin 5 → ℝ
  intercept : ℝ

noncomputable section

/-- Modelled from the spec: `SCALER.transform` (line 159) is sklearn
library code, documented as standardizing each feature by the stored
scaler parameters, `z_i = (x_i - mean_i) / scale_i`. -/
def ScalerParams.transform (s : ScalerParams) (x : Fin 5 → ℝ) : Fin 5 → ℝ :=
  fun i => (x i - s.mean i) / s.scale i

/-- The logistic function `1 / (1 + e^-L)` (spec section 4.2 and
glossary). -/
def sigmoid (L : ℝ) : ℝ := 1 / (1 + Real.exp (-L))

/-- Modelled from the spec: `MODEL.predict_proba(...)[0][1]` (line 160) is
sklearn library code, documented as the class-1 probability of a linear
model: the sigmoid of `intercept + Σ w_i * z_i`. -/
def ClassifierParams.predict_proba1 (m : ClassifierParams) (z : Fin 5 → ℝ) : ℝ :=
  sigmoid (m.intercept + ∑ i, m.coef i * z i)

/-- `predict_diabetes` (lines 153-162): returns `(0.0, None)` when the
model or scaler is not loaded, otherwise the predicted probability
together with the (unscaled) one-row input frame built from the record in
`FEATURES` order. -/
def predict_diabetes (MODEL : Option ClassifierParams) (SCALER : Option ScalerParams)
    (data : Fin 5 → ℝ) : ℝ × Option (Fin 5 → ℝ) :=
  match MODEL, SCALER with
  | some m, some s => (m.predict_proba1 (s.transform data), some data)
  | _, _ => (0, none)

end

/-- The documented UI ranges of the five record fields (spec section 3 and
the `st.number_input` bounds, lines 293-334): glucose in [70,300], HbA1c
in [3,15], BMI in [15,80], and the two 0/1 flags. -/
def validRecord (x : Fin 5 → ℝ) : Prop :=
  70 ≤ x 0 ∧ x 0 ≤ 300 ∧ 3 ≤ x 1 ∧ x 1 ≤ 15 ∧ 15 ≤ x 2 ∧ x 2 ≤ 80 ∧
    (x 3 = 0 ∨ x 3 = 1) ∧ (x 4 = 0 ∨ x 4 = 1)

/-! ## The resource loader (`load_resources`, lines 122-139) -/

/-- The filesystem as the loader sees it: for each of the three expected
files, `none` when opening it raises `FileNotFoundError`, otherwise the
parsed content. -/
structure Disk where
  modelo_diabetes_logreg : Option ClassifierParams
  scaler_diabetes : Option ScalerParams
  odds_ratios_reales : Option (List ORRow)

/-- What `load_resources` leaves behind: the three module-level globals
`MODEL`, `SCALER`, `TABLA_OR` (line 141) and the name of the missing file
shown by `st.error` (line 137), if any. -/
structure LoadedResources where
  MODEL : Option ClassifierParams
  SCALER : Option ScalerParams
  TABLA_OR : Option (List ORRow)
  error_file : Option String

/-- `load_resources` (lines 122-139): the three loads run in sequence
inside one `try`; the first `FileNotFoundError` aborts the block, so every
resource from the failing one onward keeps its initial `None`, and the
`except` arm reports the missing file name (`e.filename`). -/
def load_resources (d : Disk) : LoadedResources :=
  match d.modelo_diabetes_logreg with
  | none => ⟨none, none, none, some "modelo_diabetes_logreg.pkl"⟩
  | some m =>
    match d.scaler_diabetes with
    | none => ⟨some m, none, none, some "scaler_diabetes.pkl"⟩
    | some s =>
      match d.odds_ratios_reales with
      | none => ⟨some m, some s, none, some "odds_ratios_reales.csv"⟩
      | some t => ⟨some m, some s, some t, none⟩

/-- The interpretation section of a rerun (lines 470-514): the
`factores_identificados` loop starts with `TABLA_OR.iterrows()`; when
`TABLA_OR` is `None` this raises
`AttributeError: NoneType object has no attribute iterrows`, which aborts
the rerun.  Both failure modes are modelled as `Except.error`. -/
def factoresSection (TABLA_OR : Option (List ORRow)) (p : Patient) :
    Except String (List Factor) :=
  match TABLA_OR with
  | none => Except.error "AttributeError: NoneType object has no attribute iterrows"
  | some rows => factoresIdentificados p rows

/-! ## Spec-side definitions for the refinement claims -/

/-- Modelled from the spec (section 4.4), for comparison with the code
path: for each row with odds ratio `> 1.0`, check the patient field named
by the row against its fixed clinical threshold (glucose > 100, HbA1c
≥ 6.5 for the diabetes-range message else ≥ 5.7 for the prediabetes
message, BMI > 25, hypertension present, cardiovascular disease present)
and, if triggered, emit the explanation for that row. -/
def specFactor (p : Patient) (r : ORRow) : Option Factor :=
  if 1 < r.or_val then
    if r.var = "nivel_glucosa" then
      if 100 < p.nivel_glucosa then some (Factor.glucosaElevada p.nivel_glucosa r.or_val)
      else none
    else if r.var = "nivel_hba1c" then
      if 6.5 ≤ p.nivel_hba1c then some (Factor.hba1cDiabetes p.nivel_hba1c r.or_val)
      else if 5.7 ≤ p.nivel_hba1c then some (Factor.hba1cPrediabetes p.nivel_hba1c r.or_val)
      else none
    else if r.var = "imc" then
      if 25 < p.imc then some (Factor.imcElevado p.imc r.or_val) else none
    else if r.var = "hipertension" then
      if p.hipertension = 1 then some (Factor.hipertensionPresente r.or_val) else none
    else if r.var = "cardiopatia" then
      if p.cardiopatia = 1 then some (Factor.cardiopatiaPresente r.or_val) else none
    else none
  else none

/-! ## Helper lemmas -/

/-- The dict lookup of line 475 succeeds exactly on the five feature keys. -/
theorem patientLookup_isSome_iff (p : Patient) (var : String) :
    (patientLookup p var).isSome = true ↔ var ∈ FEATURES := by
  unfold patientLookup FEATURES
  split_ifs <;> simp_all

/-- Only rows with odds ratio `> 1.0` can produce a factor, and the factor
carries that odds ratio. -/
theorem rowFactor_some_orVal (var : String) (or_val paciente_val : ℚ) (f : Factor)
    (h : rowFactor var or_val paciente_val = some f) : f.orVal = or_val ∧ 1 < or_val := by
  unfold rowFactor at h
  split_ifs at h <;> first
    | exact Option.noConfusion h
    | (cases h; exact ⟨rfl, by assumption⟩)

/-- The degraded fallback of the scorer: a missing model or scaler yields
`(0.0, None)`. -/
theorem predict_diabetes_of_missing (MODEL : Option ClassifierParams)
    (SCALER : Option ScalerParams) (x : Fin 5 → ℝ)
    (h : MODEL = none ∨ SCALER = none) :
    predict_diabetes MODEL SCALER x = (0, none) := by
  rcases h with h | h
  · subst h; cases SCALER <;> rfl
  · subst h; cases MODEL <;> rfl

/-- Once the lookup succeeded, the in-loop cascade agrees with the
spec-side trigger table for that row. -/
theorem rowFactor_eq_specFactor (p : Patient) (r : ORRow) (v : ℚ)
    (h : patientLookup p r.var = some v) :
    rowFactor r.var r.or_val v = specFactor p r := by
  unfold patientLookup at h
  split_ifs at h <;> simp_all [rowFactor, specFactor]

/-- The loop succeeds exactly when every table row names one of the five
features. -/
theorem factoresIdentificados_ok_iff (p : Patient) (rows : List ORRow) :
    (∃ l, factoresIdentificados p rows = Except.ok l) ↔
      ∀ r ∈ rows, r.var ∈ FEATURES := by
  induction rows with
  | nil => simp [factoresIdentificados]
  | cons r rest ih =>
    cases hl : patientLookup p r.var with
    | none =>
      have : ¬ r.var ∈ FEATURES := by
        rw [← patientLookup_isSome_iff p r.var, hl]; simp
      simp [factoresIdentificados, hl, this]
    | some v =>
      have hmem : r.var ∈ FEATURES := by
        rw [← patientLookup_isSome_iff p r.var, hl]; simp
      cases hrest : factoresIdentificados p rest with
      | error e =>
        have : ¬ ∀ x ∈ rest, x.var ∈ FEATURES := by
          intro hall
          obtain ⟨l, hld⟩ := ih.mpr hall
          rw [hrest] at hld; exact Except.noConfusion hld
        simp [factoresIdentificados, hl, hrest, hmem, this]
      | ok tail =>
        have hall : ∀ x ∈ rest, x.var ∈ FEATURES := ih.mp ⟨tail, hrest⟩
        cases hrf : rowFactor r.var r.or_val v <;>
          simp [factoresIdentificados, hl, hrest, hrf, hmem, hall] <;>
          exact hall

/-- When every row names a feature, the loop refines the spec-side
description: the output is the in-order `filterMap` of the trigger
table over the rows. -/
theorem factoresIdentificados_eq_filterMap (p : Patient) (rows : List ORRow)
    (h : ∀ r ∈ rows, r.var ∈ FEATURES) :
    factoresIdentificados p rows = Except.ok (List.filterMap (specFactor p) rows) := by
  induction rows with
  | nil => rfl
  | cons r rest ih =>
    have hmem : r.var ∈ FEATURES := h r (by simp)
    have hrest := ih (fun x hx => h x (by simp [hx]))
    have hsome : (patientLookup p r.var).isSome = true :=
      (patientLookup_isSome_iff p r.var).mpr hmem
    obtain ⟨v, hv⟩ := Option.isSome_iff_exists.mp hsome
    have hrow := rowFactor_eq_specFactor p r v hv
    cases hs : specFactor p r with
    | none => simp [factoresIdentificados, hv, hrest, hrow, hs, List.filterMap_cons]
    | some f => simp [factoresIdentificados, hv, hrest, hrow, hs, List.filterMap_cons]

/-- Every factor the loop emits carries an odds ratio `> 1.0`. -/
theorem factoresIdentificados_orVal (p : Patient) (rows : List ORRow)
    (l : List Factor) (h : factoresIdentificados p rows = Except.ok l) :
    ∀ f ∈ l, 1 < f.orVal := by
  induction rows generalizing l with
  | nil =>
    simp only [factoresIdentificados, Except.ok.injEq] at h
    subst h; simp
  | cons r rest ih =>
    cases hl : patientLookup p r.var with
    | none => simp [factoresIdentificados, hl] at h
    | some v =>
      cases hrest : factoresIdentificados p rest with
      | error e => simp [factoresIdentificados, hl, hrest] at h
      | ok tail =>
        cases hrf : rowFactor r.var r.or_val v with
        | none =>
          simp only [factoresIdentificados, hl, hrest, hrf, Except.ok.injEq] at h
          subst h
          exact ih tail hrest
        | some f =>
          simp only [factoresIdentificados, hl, hrest, hrf, Except.ok.injEq] at h
          subst h
          intro g hg
          rcases List.mem_cons.mp hg with hg | hg
          · subst hg
            obtain ⟨he, hgt⟩ := rowFactor_some_orVal _ _ _ _ hrf
            rw [he]; exact hgt
          · exact ih tail hrest g hg

/-! ## Claim theorems -/

/-- Claim C1: the tier is a pure step function of the probability with
fixed thresholds — on [0,1], `p ≥ 0.50` gives ALTO (HIGH), `0.20 ≤ p <
0.50` gives MODERADO, `p < 0.20` gives BAJO (LOW); the boundary is
inclusive on the HIGH side, so 0.49999 is MODERADO and 0.50001 is ALTO. -/
theorem riesgo_categoria_step_function :
    (∀ p : ℝ, 0 ≤ p → p ≤ 1 →
      ((riesgo_categoria (p * 100) = "ALTO" ↔ 0.5 ≤ p) ∧
       (riesgo_categoria (p * 100) = "MODERADO" ↔ 0.2 ≤ p ∧ p < 0.5) ∧
       (riesgo_categoria (p * 100) = "BAJO" ↔ p < 0.2))) ∧
    riesgo_categoria ((0.49999 : ℝ) * 100) = "MODERADO" ∧
    riesgo_categoria ((0.50001 : ℝ) * 100) = "ALTO" := by
  refine ⟨fun p h0 h1 => ?_, by norm_num [riesgo_categoria], by norm_num [riesgo_categoria]⟩
  unfold riesgo_categoria
  split_ifs with ha hb
  · refine ⟨iff_of_true rfl (by linarith), iff_of_false (by simp) ?_,
      iff_of_false (by simp) ?_⟩
    · rintro ⟨-, h5⟩; linarith
    · intro h2; linarith
  · push_neg at ha
    refine ⟨iff_of_false (by simp) ?_, iff_of_true rfl ⟨by linarith, by linarith⟩,
      iff_of_false (by simp) ?_⟩
    · intro h5; linarith
    · intro h2; linarith
  · push_neg at ha hb
    refine ⟨iff_of_false (by simp) ?_, iff_of_false (by simp) ?_,
      iff_of_true rfl (by linarith)⟩
    · intro h5; linarith
    · rintro ⟨h2, -⟩; linarith

/-- Claim C1 witness: at probability 0.3 the tier is MODERADO. -/
theorem riesgo_categoria_step_function_witness :
    (0 : ℝ) ≤ 0.3 ∧ (0.3 : ℝ) ≤ 1 ∧ riesgo_categoria ((0.3 : ℝ) * 100) = "MODERADO" :=
  ⟨by norm_num, by norm_num,
    ((riesgo_categoria_step_function.1 0.3 (by norm_num) (by norm_num)).2.1).mpr
      (by norm_num)⟩

/-- Claim C2: with scaler and classifier loaded, the score of a record in
the documented ranges is the sigmoid `1/(1+e^-L)` of the logit
`L = intercept + Σ w_i * z_i` over the standardized features
`z_i = (x_i - mean_i) / scale_i`. -/
theorem predict_diabetes_is_sigmoid_of_logit (m : ClassifierParams) (s : ScalerParams)
    (x : Fin 5 → ℝ) (hx : validRecord x) :
    (predict_diabetes (some m) (some s) x).1 =
      1 / (1 + Real.exp (-(m.intercept + ∑ i, m.coef i * ((x i - s.mean i) / s.scale i)))) :=
  rfl

/-- Claim C3: with scaler and classifier loaded, the score of a record in
the documented ranges lies strictly inside (0,1). -/
theorem predict_diabetes_mem_open_unit_interval (m : ClassifierParams) (s : ScalerParams)
    (x : Fin 5 → ℝ) (hx : validRecord x) :
    0 < (predict_diabetes (some m) (some s) x).1 ∧
      (predict_diabetes (some m) (some s) x).1 < 1 := by
  obtain ⟨L, hL⟩ :
      ∃ L, (predict_diabetes (some m) (some s) x).1 = 1 / (1 + Real.exp (-L)) := ⟨_, rfl⟩
  have he := Real.exp_pos (-L)
  rw [hL]
  constructor
  · positivity
  · rw [div_lt_one (by positivity)]
    linarith

/-- Claim C4: if the scaler or the classifier is absent, the scorer
returns exactly probability 0.0 (and the `None` frame) with no error. -/
theorem predict_diabetes_missing_fallback (MODEL : Option ClassifierParams)
    (SCALER : Option ScalerParams) (x : Fin 5 → ℝ)
    (h : MODEL = none ∨ SCALER = none) :
    predict_diabetes MODEL SCALER x = (0, none) :=
  predict_diabetes_of_missing MODEL SCALER x h

/-! ## Concrete inputs for the witnesses -/

/-- The sidebar defaults (glucose 120, HbA1c 5.5, BMI 25, no flags) as a
record row in `FEATURES` order. -/
noncomputable def x0 : Fin 5 → ℝ := fun i =>
  match i with
  | ⟨0, _⟩ => 120
  | ⟨1, _⟩ => 5.5
  | ⟨2, _⟩ => 25
  | ⟨3, _⟩ => 0
  | ⟨4, _⟩ => 0

/-- An identity scaler (mean 0, scale 1) standing in for the pickle. -/
noncomputable def s0 : ScalerParams := ⟨fun _ => 0, fun _ => 1⟩

/-- A zero classifier standing in for the pickle. -/
noncomputable def m0 : ClassifierParams := ⟨fun _ => 0, 0⟩

theorem x0_valid : validRecord x0 := by
  refine ⟨?_, ?_, ?_, ?_, ?_, ?_, Or.inl ?_, Or.inl ?_⟩ <;>
    show (_ : Prop) <;> norm_num [x0]

/-- The worked example patient of the spec: glucose 180, HbA1c 8.0, BMI 32,
hypertension present, cardiopathy absent. -/
def p0 : Patient := ⟨180, 8, 32, 1, 0⟩

/-- A five-row odds-ratio table with cardiopathy as the one protective
(OR < 1) entry. -/
def tablaEjemplo : List ORRow :=
  [⟨"nivel_glucosa", 2.5⟩, ⟨"nivel_hba1c", 3⟩, ⟨"imc", 1.8⟩,
    ⟨"hipertension", 1.5⟩, ⟨"cardiopatia", 0.8⟩]

/-- Claim C2 witness: the identity at the default sidebar record. -/
theorem predict_diabetes_is_sigmoid_of_logit_witness :
    validRecord x0 ∧
      (predict_diabetes (some m0) (some s0) x0).1 =
        1 / (1 + Real.exp
          (-(m0.intercept + ∑ i, m0.coef i * ((x0 i - s0.mean i) / s0.scale i)))) :=
  ⟨x0_valid, predict_diabetes_is_sigmoid_of_logit m0 s0 x0 x0_valid⟩

/-- Claim C3 witness: the score of the default record is strictly inside
(0,1). -/
theorem predict_diabetes_mem_open_unit_interval_witness :
    validRecord x0 ∧
      (0 < (predict_diabetes (some m0) (some s0) x0).1 ∧
        (predict_diabetes (some m0) (some s0) x0).1 < 1) :=
  ⟨x0_valid, predict_diabetes_mem_open_unit_interval m0 s0 x0 x0_valid⟩

/-- Claim C4 witness: with the model missing, the scorer returns
`(0.0, None)`. -/
theorem predict_diabetes_missing_fallback_witness :
    predict_diabetes none (some s0) x0 = (0, none) :=
  predict_diabetes_missing_fallback none (some s0) x0 (Or.inl rfl)

/-- Claim C5 (refuting evidence, code bug): with only the odds-ratio CSV
missing, the loader does report the missing file and still returns the
model and scaler, but it leaves `TABLA_OR = None`, and the interpretation
section then dies with an AttributeError on `None.iterrows()` instead of
continuing — for every patient record. -/
theorem load_resources_missing_csv_crashes_explainer
    (m : ClassifierParams) (s : ScalerParams) (p : Patient) :
    (load_resources ⟨some m, some s, none⟩).error_file = some "odds_ratios_reales.csv" ∧
    (load_resources ⟨some m, some s, none⟩).MODEL = some m ∧
    (load_resources ⟨some m, some s, none⟩).SCALER = some s ∧
    (load_resources ⟨some m, some s, none⟩).TABLA_OR = none ∧
    factoresSection (load_resources ⟨some m, some s, none⟩).TABLA_OR p =
      Except.error "AttributeError: NoneType object has no attribute iterrows" :=
  ⟨rfl, rfl, rfl, rfl, rfl⟩

/-- Claim C6: for a table whose rows all name one of the five features,
the explainer emits exactly the rows whose odds ratio exceeds 1.0 and
whose patient value crosses the clinical threshold of the row, with its
messages in table order — the loop equals the in-order `filterMap` of the
spec-side trigger table. -/
theorem explainer_emits_exactly_spec_triggers (p : Patient) (rows : List ORRow)
    (h : ∀ r ∈ rows, r.var ∈ FEATURES) :
    factoresIdentificados p rows = Except.ok (List.filterMap (specFactor p) rows) :=
  factoresIdentificados_eq_filterMap p rows h

/-- Claim C6 witness: the refinement at the example patient of the spec and a
five-row table. -/
theorem explainer_emits_exactly_spec_triggers_witness :
    (∀ r ∈ tablaEjemplo, r.var ∈ FEATURES) ∧
      factoresIdentificados p0 tablaEjemplo =
        Except.ok (List.filterMap (specFactor p0) tablaEjemplo) :=
  ⟨by decide, explainer_emits_exactly_spec_triggers p0 tablaEjemplo (by decide)⟩

/-- Claim C7: neither the explainer nor the odds-ratio chart ever reports
a variable whose odds ratio is ≤ 1.0: every emitted factor and every bar
carries an odds ratio > 1.0. -/
theorem no_factor_or_bar_without_elevated_or :
    (∀ (p : Patient) (rows : List ORRow) (l : List Factor),
        factoresIdentificados p rows = Except.ok l → ∀ f ∈ l, 1 < f.orVal) ∧
    (∀ (t : Option (List ORRow)) (bars : List ORRow),
        create_or_chart t = some bars → ∀ b ∈ bars, 1 < b.or_val) := by
  constructor
  · exact factoresIdentificados_orVal
  · intro t bars h b hb
    cases t with
    | none => exact Option.noConfusion h
    | some rows =>
      simp only [create_or_chart] at h
      split_ifs at h <;>
        first
          | exact Option.noConfusion h
          | (rw [Option.some.injEq] at h
             subst h
             exact of_decide_eq_true (List.mem_filter.mp hb).2)

/-- Claim C7 witness: a concrete emitted factor has odds ratio above 1. -/
theorem no_factor_or_bar_without_elevated_or_witness :
    1 < Factor.orVal (Factor.imcElevado 32 2) := by
  have hlook : patientLookup p0 "imc" = some 32 := by simp [patientLookup, p0]
  have hrow : rowFactor "imc" 2 32 = some (Factor.imcElevado 32 2) := by
    norm_num [rowFactor] <;> simp
  have hok : factoresIdentificados p0 [⟨"imc", 2⟩] = Except.ok [Factor.imcElevado 32 2] := by
    simp [factoresIdentificados, hlook, hrow]
  exact no_factor_or_bar_without_elevated_or.1 p0 [⟨"imc", 2⟩] [Factor.imcElevado 32 2]
    hok (Factor.imcElevado 32 2) (by simp)

/-- Claim C8: with the classifier or scaler missing, the fallback score
0.0 renders as the LOW tier for every record: BAJO category, the
`alert-low` (green) banner, and a 0% gauge in green. -/
theorem fallback_zero_renders_low (MODEL : Option ClassifierParams)
    (SCALER : Option ScalerParams) (x : Fin 5 → ℝ)
    (h : MODEL = none ∨ SCALER = none) :
    riesgo_categoria ((predict_diabetes MODEL SCALER x).1 * 100) = "BAJO" ∧
    (resultadoBanner ((predict_diabetes MODEL SCALER x).1 * 100)).alertClass = "alert-low" ∧
    (create_gauge_chart (predict_diabetes MODEL SCALER x).1).value = 0 ∧
    (create_gauge_chart (predict_diabetes MODEL SCALER x).1).bar_color = "#06D6A0" := by
  have h0 : (predict_diabetes MODEL SCALER x).1 = 0 := by
    rw [predict_diabetes_of_missing MODEL SCALER x h]
  rw [h0]
  norm_num [riesgo_categoria, resultadoBanner, create_gauge_chart]

/-- Claim C8 witness: the rendering of the fallback with the model file
missing, at the default record. -/
theorem fallback_zero_renders_low_witness :
    riesgo_categoria ((predict_diabetes none (some s0) x0).1 * 100) = "BAJO" ∧
    (resultadoBanner ((predict_diabetes none (some s0) x0).1 * 100)).alertClass = "alert-low" ∧
    (create_gauge_chart (predict_diabetes none (some s0) x0).1).value = 0 ∧
    (create_gauge_chart (predict_diabetes none (some s0) x0).1).bar_color = "#06D6A0" :=
  fallback_zero_renders_low none (some s0) x0 (Or.inl rfl)

/-- Claim C9: the explainer looks the patient value up by the variable
name of the row before any odds-ratio check, so it requires every name
in the `Variable Clínica` column of the table to be one of the five
feature keys:
the lookup succeeds exactly on those keys, and the loop returns normally
exactly when every row (whatever its odds ratio) names one of them. -/
theorem explainer_lookup_precondition (p : Patient) (rows : List ORRow) :
    (∀ var : String, (patientLookup p var).isSome = true ↔ var ∈ FEATURES) ∧
    ((∃ l, factoresIdentificados p rows = Except.ok l) ↔
      ∀ r ∈ rows, r.var ∈ FEATURES) :=
  ⟨patientLookup_isSome_iff p, factoresIdentificados_ok_iff p rows⟩

/-- Claim C9 witness: the lookup fails on the foreign key `edad` and
succeeds on the feature key `imc`. -/
theorem explainer_lookup_precondition_witness :
    (patientLookup p0 "edad").isSome = false ∧
      (patientLookup p0 "imc").isSome = true := by
  have h := (explainer_lookup_precondition p0 []).1
  constructor
  · cases hb : (patientLookup p0 "edad").isSome
    · rfl
    · exact absurd ((h "edad").mp hb) (by decide)
  · exact (h "imc").mpr (by decide)

/-- Claim C10: for glucose in (100, 125] the parameter-summary row reads
`✓ Normal` while the explainer simultaneously reports the same glucose as
an elevated risk factor whenever the odds ratio of the glucose row exceeds
1.0 — the two views use different glucose thresholds. -/
theorem params_display_vs_explainer_glucose (p : Patient) (or_val : ℚ)
    (h1 : 100 < p.nivel_glucosa) (h2 : p.nivel_glucosa ≤ 125) (h3 : 1 < or_val) :
    (paramsEstado p).head? = some "✓ Normal" ∧
    rowFactor "nivel_glucosa" or_val p.nivel_glucosa =
      some (Factor.glucosaElevada p.nivel_glucosa or_val) := by
  constructor
  · have hn : ¬ 125 < p.nivel_glucosa := by linarith
    simp [paramsEstado, hn]
  · simp [rowFactor, h3, h1]

/-- A patient with glucose 110, inside the disputed band. -/
def pGlu : Patient := ⟨110, 5, 22, 0, 0⟩

/-- Claim C10 witness: at glucose 110 with odds ratio 2 the summary says
normal while the explainer emits the elevated-glucose factor. -/
theorem params_display_vs_explainer_glucose_witness :
    (100 : ℚ) < 110 ∧ (110 : ℚ) ≤ 125 ∧ (1 : ℚ) < 2 ∧
      ((paramsEstado pGlu).head? = some "✓ Normal" ∧
        rowFactor "nivel_glucosa" 2 pGlu.nivel_glucosa =
          some (Factor.glucosaElevada pGlu.nivel_glucosa 2)) :=
  ⟨by norm_num, by norm_num, by norm_num,
    params_display_vs_explainer_glucose pGlu 2 (by norm_num [pGlu])
      (by norm_num [pGlu]) (by norm_num)⟩

end App4
